import Mathlib

/-!
Shallow embedding of the probe-and-verdict harness in
`scripts/test-security.py` and `scripts/test_ui_production.py`.

External HTTP/browser interactions are modelled as inputs: a probe that
performs n external calls is a function of an outcome map `Nat → Option _`,
where `some x` stands for a completed response and `none` for a raised
transport exception (requests / playwright error).  Each definition mirrors
the corresponding Python function line by line; verdicts are booleans, as in
the source (the scripts have no separate INCONCLUSIVE value).
-/

namespace Villabot

/-- Python substring membership: does `pre` occur at the head of `l`? -/
def leadsWith : List Char → List Char → Bool
  | [], _ => true
  | _ :: _, [] => false
  | a :: as, b :: bs => a == b && leadsWith as bs

/-- Does `needle` occur anywhere inside `l`?  (Helper for Python's `in`.) -/
def subList (needle : List Char) : List Char → Bool
  | [] => leadsWith needle []
  | c :: t => leadsWith needle (c :: t) || subList needle t

/-- Python `needle in hay` on strings. -/
def strContains (hay needle : String) : Bool :=
  subList needle.toList hay.toList

/-! ## test_rate_limiting (scripts/test-security.py lines 14-35)

The loop runs `for i in range(7)`; each iteration appends either the
response's status code or the sentinel `"error"` to `results`; the verdict
is `429 in results`. -/

/-- One recorded entry of the `results` list in `test_rate_limiting`:
either a status code or the `"error"` sentinel appended on exception. -/
inductive AttemptResult
  | status (s : Nat)
  | error
deriving DecidableEq, Repr

/-- What `test_rate_limiting` appends for one attempt's outcome. -/
def attemptOf : Option Nat → AttemptResult
  | some s => AttemptResult.status s
  | none => AttemptResult.error

/-- The `results` list built by the `for i in range(7)` loop. -/
def rateResults (net : Nat → Option Nat) : List AttemptResult :=
  (List.range 7).map fun i => attemptOf (net i)

/-- `test_rate_limiting`: verdict is `429 in results`. -/
def test_rate_limiting (net : Nat → Option Nat) : Bool :=
  decide (AttemptResult.status 429 ∈ rateResults net)

/-! ## test_zod_validation (scripts/test-security.py lines 38-96) -/

/-- A completed HTTP response as `test_zod_validation` consumes it:
status code plus the parsed JSON body's `code` and `error` fields. -/
structure Resp where
  status : Nat
  code : Option String
  errMsg : Option String
deriving DecidableEq

/-- `data.get("code") == "VALIDATION_ERROR" or "Validation" in data.get("error", "")`. -/
def hasValidationMarker (r : Resp) : Bool :=
  (r.code == some "VALIDATION_ERROR") || strContains (r.errMsg.getD "") "Validation"

/-- Per-case body of the loop in `test_zod_validation`:
`passed = status == expected; if passed and status == 400: passed = marker`. -/
def zodCasePassed (expected : Nat) (r : Resp) : Bool :=
  let passed := r.status == expected
  if passed && (r.status == 400) then hasValidationMarker r else passed

/-- The `expected_code` of each of the five cases in the `tests` list. -/
def zodCases : List Nat := [400, 400, 400, 400, 400]

/-- `test_zod_validation`: `all_passed` is the conjunction over the five
cases; a raised request (`none`) hits the `except` branch, which sets
`all_passed = False`. -/
def test_zod_validation (net : Nat → Option Resp) : Bool :=
  zodCases.enum.all fun p =>
    match net p.1 with
    | some r => zodCasePassed p.2 r
    | none => false

/-! ## test_cors_headers (scripts/test-security.py lines 99-118)

Inputs are the `Access-Control-Allow-Origin` header values of the two
OPTIONS responses, with `""` for an absent header (`headers.get(..., "")`).
`passed = cors_header and not evil_cors` (Python truthiness of strings). -/

/-- The allowed origin sent with the first OPTIONS request. -/
def allowedOrigin : String := "http://localhost:3001"

/-- `test_cors_headers` verdict: allowed-origin header truthy (non-empty)
and disallowed-origin header falsy (empty). -/
def test_cors_headers (corsHeader evilCors : String) : Bool :=
  (corsHeader != "") && (evilCors == "")

/-- Modelled from the spec: a "reflected" allow-header is one whose value
equals the `Origin` the request was sent with (used only to compare the
spec's reflection requirement with what the code checks). -/
def specReflectedCors (origin header : String) : Bool :=
  header == origin

/-! ## test_setup_status_auth (scripts/test-security.py lines 121-134) -/

/-- `is_generic = data.get("completed") == False and
data.get("steps", {}).get("workspace") == False`, over the optional JSON
fields of the unauthenticated response. -/
def test_setup_status_auth (completed workspace : Option Bool) : Bool :=
  (completed == some false) && (workspace == some false)

/-! ## test_sql_injection_protection (scripts/test-security.py lines 137-168)

The loop runs over the three payloads; `is_safe = status != 500`; `if not
is_safe: all_safe = False`; the `except` branch only prints and leaves
`all_safe` unchanged. -/

/-- The three injection payloads sent as the `search` query parameter. -/
def sqlPayloads : List String :=
  ["test\x27; DROP TABLE workspaces; --",
   "test%\x27 OR \x271\x27=\x271",
   "test.ilike.%admin%"]

/-- One iteration of the payload loop acting on the `all_safe` accumulator. -/
def sqlStep (net : Nat → Option Nat) (all_safe : Bool) (i : Nat) : Bool :=
  match net i with
  | some s => if s != 500 then all_safe else false
  | none => all_safe

/-- `test_sql_injection_protection`: fold of the payload loop starting from
`all_safe = True`. -/
def test_sql_injection_protection (net : Nat → Option Nat) : Bool :=
  (List.range sqlPayloads.length).foldl (sqlStep net) true

/-! ## test_with_playwright (scripts/test-security.py lines 171-236)

The redirect check computes `redirected_to_login` from the final URL after
navigating to `/dashboard` and prints it; the function then returns `True`
unconditionally (line 236). -/

/-- `redirected_to_login = "/auth" in final_url or "/login" in final_url`. -/
def redirected_to_login (final_url : String) : Bool :=
  strContains final_url "/auth" || strContains final_url "/login"

/-- `test_with_playwright`: the computed flag only feeds the printed line;
the returned verdict is the literal `True`. -/
def test_with_playwright (final_url : String) : Bool :=
  let _flag := redirected_to_login final_url
  true

/-! ## main of scripts/test-security.py (lines 239-266)

The six probe calls are plain sequential assignments with no try/except:
a probe that raises aborts `main` before the summary.  A probe is modelled
as `Except String Bool`: `Except.error` for an uncaught exception,
`Except.ok` for a returned verdict. -/

/-- Sequential execution of `main`'s probe assignments: the first uncaught
exception propagates and no results dictionary is produced. -/
def securityRun : List (String × Except String Bool) → Except String (List (String × Bool))
  | [] => Except.ok []
  | (_, Except.error e) :: _ => Except.error e
  | (n, Except.ok b) :: t =>
    match securityRun t with
    | Except.error e => Except.error e
    | Except.ok rs => Except.ok ((n, b) :: rs)

/-- Did the run reach its summary with a results dictionary? -/
def runProduced : Except String (List (String × Bool)) → Bool
  | Except.ok _ => true
  | Except.error _ => false

/-- `return 0 if all_passed else 1` over the `results` dictionary. -/
def securityExit (results : List (String × Bool)) : Nat :=
  if results.all (fun p => p.2) then 0 else 1

/-! ## main of scripts/test_ui_production.py (lines 381-437)

The probe sequence sits inside `try`; the first raising probe is caught by
`except` (nothing more is recorded), the `finally` block prints the summary,
and the return value is `0 if all(test_results.values()) else 1`. -/

/-- Results recorded from the nine post-authentication probes: recording
stops (without an entry) at the first probe that raises. -/
def collectRest : List (String × Except String Bool) → List (String × Bool)
  | [] => []
  | (n, Except.ok b) :: t => (n, b) :: collectRest t
  | (_, Except.error _) :: _ => []

/-- The `test_results` dictionary at summary time: empty if
`test_authentication` raised; only `Authentication` if it returned False;
otherwise Authentication followed by the rest up to the first exception. -/
def uiCollect (auth : Except String Bool) (rest : List (String × Except String Bool)) :
    List (String × Bool) :=
  match auth with
  | Except.error _ => []
  | Except.ok b =>
    if b then ("Authentication", b) :: collectRest rest else [("Authentication", b)]

/-- `return 0 if all(test_results.values()) else 1`. -/
def uiExit (test_results : List (String × Bool)) : Nat :=
  if test_results.all (fun p => p.2) then 0 else 1

/-- Exit code of `main` in terms of the probe behaviours. -/
def uiMainExit (auth : Except String Bool) (rest : List (String × Except String Bool)) : Nat :=
  uiExit (uiCollect auth rest)

example : test_rate_limiting (fun _ => some 200) = false := by decide
example : test_rate_limiting (fun i => if i = 6 then some 429 else some 401) = true := by decide
example : test_zod_validation (fun _ => some ⟨400, some "VALIDATION_ERROR", none⟩) = true := by decide
example : test_zod_validation (fun _ => some ⟨400, none, some "Validation failed"⟩) = true := by decide
example : test_zod_validation (fun _ => some ⟨400, none, some "oops"⟩) = false := by decide
example : test_zod_validation (fun _ => none) = false := by decide

/-! ## Helper lemmas -/

lemma attemptOf_eq_status (o : Option Nat) (s : Nat) :
    attemptOf o = AttemptResult.status s ↔ o = some s := by
  cases o <;> simp [attemptOf]

lemma rate_pass_iff (net : Nat → Option Nat) :
    test_rate_limiting net = true ↔ ∃ i, i < 7 ∧ net i = some 429 := by
  simp [test_rate_limiting, rateResults, List.mem_map, List.mem_range, attemptOf_eq_status]

lemma sqlStep_eq (net : Nat → Option Nat) (b : Bool) (i : Nat) :
    sqlStep net b i = (b && !(net i == some 500)) := by
  unfold sqlStep
  cases h : net i with
  | none => simp
  | some s =>
    by_cases hs : s = 500
    · subst hs; simp
    · simp [hs]

lemma sqlFold_eq (net : Nat → Option Nat) (l : List Nat) (b : Bool) :
    l.foldl (sqlStep net) b = (b && l.all fun i => !(net i == some 500)) := by
  induction l generalizing b with
  | nil => simp
  | cons x t ih =>
    rw [List.foldl_cons, sqlStep_eq, ih, List.all_cons, Bool.and_assoc]

lemma exit_zero_iff (l : List (String × Bool)) :
    (if l.all (fun p => p.2) then 0 else 1) = 0 ↔ ∀ p ∈ l, p.2 = true := by
  split <;> rename_i h <;> simp_all [List.all_eq_true]

lemma exit_one_iff (l : List (String × Bool)) :
    (if l.all (fun p => p.2) then 0 else 1) = 1 ↔ ¬ ∀ p ∈ l, p.2 = true := by
  split <;> rename_i h <;> simp_all [List.all_eq_true]

/-- An outcome map for the rate-limit probe in which attempt 0 raises a
transport exception and every later attempt returns 429. -/
def rateNetErr : Nat → Option Nat := fun i => if i = 0 then none else some 429

/-! ## Claims -/

/-- C1, counterexample: in `test_rate_limiting` a run whose first attempt
fails with a transport error (recorded as `"error"`) still gets verdict
`True` (PASS) because a later attempt returned 429 — so a probe with a
failed external call is not INCONCLUSIVE ("never PASS" fails). -/
theorem C1_cex :
    AttemptResult.error ∈ rateResults rateNetErr ∧ test_rate_limiting rateNetErr = true := by
  constructor <;> decide

/-- C1, amended: a transport error never yields a distinct INCONCLUSIVE
verdict.  In `test_zod_validation` a raised request on any case forces the
probe's result to `False` — the same value as a failed check — and in
`test_rate_limiting` the verdict is still PASS exactly when some attempt
returned 429, transport errors notwithstanding. -/
theorem C1_thm (netZ : Nat → Option Resp) (netR : Nat → Option Nat)
    (h : ∃ i, i < zodCases.length ∧ netZ i = none) :
    test_zod_validation netZ = false ∧
    (test_rate_limiting netR = true ↔ ∃ i, i < 7 ∧ netR i = some 429) := by
  refine ⟨?_, rate_pass_iff netR⟩
  obtain ⟨i, hi, hnone⟩ := h
  simp only [zodCases, List.length_cons, List.length_nil] at hi
  cases hb : test_zod_validation netZ with
  | false => rfl
  | true =>
    exfalso
    rw [test_zod_validation, List.all_eq_true] at hb
    have hmem : (i, 400) ∈ zodCases.enum := by
      interval_cases i <;> decide
    have := hb (i, 400) hmem
    simp [hnone] at this

/-- C1, witness for the amended theorem. -/
theorem C1_wit :
    test_zod_validation (fun _ => none) = false ∧
    (test_rate_limiting (fun _ => some 200) = true ↔
      ∃ i, i < 7 ∧ (fun _ => (some 200 : Option Nat)) i = some 429) :=
  C1_thm (fun _ => none) (fun _ => some 200) ⟨0, by decide, rfl⟩

/-- C2, counterexample: in `main` of test-security.py an exception raised
inside the first probe (e.g. `test_cors_headers`, which has no try/except)
propagates: the run aborts, the second probe is never recorded, and no
results dictionary reaches the summary. -/
theorem C2_cex :
    securityRun [("CORS Headers", Except.error "ConnectionError"),
                 ("Zod Validation", Except.ok true)]
      = Except.error "ConnectionError" := rfl

/-- C2, amended: if any probe in test-security.py's `main` raises an
uncaught exception, the run never produces a results dictionary — later
probes are not executed and no final report lists the declared probes. -/
theorem C2_thm (probes : List (String × Except String Bool)) (n e : String)
    (h : (n, Except.error e) ∈ probes) :
    runProduced (securityRun probes) = false := by
  induction probes with
  | nil => cases h
  | cons hd t ih =>
    obtain ⟨nm, r⟩ := hd
    cases r with
    | error e2 => simp [securityRun, runProduced]
    | ok b =>
      have ht : (n, Except.error e) ∈ t := by
        rcases List.mem_cons.mp h with heq | ht
        · simp [Prod.mk.injEq] at heq
        · exact ht
      have hrest := ih ht
      cases hr : securityRun t with
      | error e3 => simp [securityRun, hr, runProduced]
      | ok rs => rw [hr] at hrest; simp [runProduced] at hrest

/-- C2, witness for the amended theorem. -/
theorem C2_wit :
    runProduced (securityRun [("Setup Status Auth", Except.error "Timeout")]) = false :=
  C2_thm _ "Setup Status Auth" "Timeout" (by simp)

/-- C3: in both scripts the process exit code is 0 exactly when every
recorded verdict is True (PASS), and 1 exactly when some recorded verdict
is not PASS. -/
theorem C3_thm (rs ts : List (String × Bool)) :
    (securityExit rs = 0 ↔ ∀ p ∈ rs, p.2 = true) ∧
    (securityExit rs = 1 ↔ ¬ ∀ p ∈ rs, p.2 = true) ∧
    (uiExit ts = 0 ↔ ∀ p ∈ ts, p.2 = true) ∧
    (uiExit ts = 1 ↔ ¬ ∀ p ∈ ts, p.2 = true) :=
  ⟨exit_zero_iff rs, exit_one_iff rs, exit_zero_iff ts, exit_one_iff ts⟩

/-- C4: `test_rate_limiting` records exactly 7 attempt outcomes; its verdict
is PASS (True) iff at least one of the 7 attempts returned status 429, and
FAIL (False) iff none did. -/
theorem C4_thm (net : Nat → Option Nat) :
    (rateResults net).length = 7 ∧
    (test_rate_limiting net = true ↔ ∃ i, i < 7 ∧ net i = some 429) ∧
    (test_rate_limiting net = false ↔ ∀ i, i < 7 → net i ≠ some 429) := by
  refine ⟨by simp [rateResults], rate_pass_iff net, ?_⟩
  rw [← Bool.not_eq_true, rate_pass_iff net]
  push_neg
  rfl

/-- C5: every case of `test_zod_validation` expects status 400, and the case
passes iff the response status equals that expected status AND the body
carries the validation marker (`code == "VALIDATION_ERROR"` or a
`"Validation"` substring in the error message); a matching status without
the marker makes the case fail. -/
theorem C5_thm (e : Nat) (r : Resp) (he : e ∈ zodCases) :
    zodCasePassed e r = true ↔ r.status = e ∧ hasValidationMarker r = true := by
  have he4 : e = 400 := by
    simp only [zodCases, List.mem_cons, List.not_mem_nil, or_false] at he
    rcases he with h | h | h | h | h <;> exact h
  subst he4
  unfold zodCasePassed
  by_cases h : r.status = 400
  · simp [h]
  · simp [h, Ne.symm]

/-- C5, witness. -/
theorem C5_wit :
    (400 ∈ zodCases) ∧
    (zodCasePassed 400 (Resp.mk 400 (some "VALIDATION_ERROR") none) = true ↔
      (Resp.mk 400 (some "VALIDATION_ERROR") none).status = 400 ∧
      hasValidationMarker (Resp.mk 400 (some "VALIDATION_ERROR") none) = true) :=
  ⟨by decide, C5_thm 400 (Resp.mk 400 (some "VALIDATION_ERROR") none) (by decide)⟩

/-- C6, counterexample: `test_cors_headers` passes when the allowed-origin
response carries `Access-Control-Allow-Origin: *`, which is not a
reflection of the origin the request was sent with — the code only checks
that the header is non-empty, never that it reflects the origin. -/
theorem C6_cex :
    test_cors_headers "*" "" = true ∧ specReflectedCors allowedOrigin "*" = false := by
  constructor <;> decide

/-- C6, amended: the probe's verdict is PASS iff the allowed-origin request
received a non-empty `Access-Control-Allow-Origin` header (its value is not
compared with the origin) and the disallowed-origin request received none. -/
theorem C6_thm (corsHeader evilCors : String) :
    test_cors_headers corsHeader evilCors = true ↔ corsHeader ≠ "" ∧ evilCors = "" := by
  simp [test_cors_headers]

/-- C7, counterexample: the injection probe judges a 503 response safe
(`status != 500`) although 503 is a server-error (5xx) status, and the
probe passes a run whose every payload returned 503. -/
theorem C7_cex :
    test_sql_injection_protection (fun _ => some 503) = true ∧ 500 ≤ 503 ∧ 503 < 600 :=
  ⟨rfl, by decide, by decide⟩

/-- C7, amended: a payload's response is judged safe iff its status code is
not exactly 500 (other 5xx statuses also count as safe), and the probe
passes iff no payload's response had status 500 — payloads whose request
raised are not judged at all. -/
theorem C7_thm (net : Nat → Option Nat) :
    test_sql_injection_protection net = true ↔
      ∀ i, i < sqlPayloads.length → net i ≠ some 500 := by
  rw [test_sql_injection_protection, sqlFold_eq]
  simp [List.all_eq_true, List.mem_range]

/-- C8, counterexample: after navigating to the protected dashboard, a final
URL matching neither `/auth` nor `/login` still yields verdict `True`,
because `test_with_playwright` returns `True` unconditionally. -/
theorem C8_cex :
    test_with_playwright "http://localhost:3001/dashboard" = true ∧
    redirected_to_login "http://localhost:3001/dashboard" = false :=
  ⟨rfl, by decide⟩

/-- C8, amended: the final-URL check only feeds the printed `✅`/`⚠️` line —
`redirected_to_login` is True iff the final URL contains `/auth` or
`/login` — while the probe's returned verdict is `True` for every final
URL, so no final URL ever makes the verdict FAIL. -/
theorem C8_thm (final_url : String) :
    test_with_playwright final_url = true ∧
    (redirected_to_login final_url = true ↔
      (strContains final_url "/auth" = true ∨ strContains final_url "/login" = true)) := by
  refine ⟨rfl, ?_⟩
  simp [redirected_to_login]

/-- C9: in `test_sql_injection_protection` a raised request leaves
`all_safe` unchanged, so a run in which every payload's request raises
returns `True` and the probe is reported as passed with no observation
made. -/
theorem C9_thm (net : Nat → Option Nat)
    (h : ∀ i, i < sqlPayloads.length → net i = none) :
    test_sql_injection_protection net = true := by
  rw [test_sql_injection_protection, sqlFold_eq]
  simp only [List.all_eq_true, List.mem_range, Bool.true_and]
  intro i hi
  rw [h i hi]
  rfl

/-- C9, witness: the all-transport-errors run passes. -/
theorem C9_wit : test_sql_injection_protection (fun _ => none) = true :=
  C9_thm (fun _ => none) (fun _ _ => rfl)

/-- C10: in `main` of test_ui_production.py, when `test_authentication`
raises before any result is recorded, `test_results` is empty and the exit
code is 0 — `all()` over the empty dictionary is vacuously true — despite
zero probes having passed. -/
theorem C10_thm (e : String) (rest : List (String × Except String Bool)) :
    uiCollect (Except.error e) rest = [] ∧ uiMainExit (Except.error e) rest = 0 :=
  ⟨rfl, rfl⟩

end Villabot
